import Mathlib

/-!
Shallow embedding of `src/kafka-pubsub.ts` (class `KafkaPubSub` of
graphql-kafka-subscriptions).

Modelling conventions:
- JSON-serializable JavaScript values are the inductive `Json` (numbers as
  `Int`; object fields as an association list with distinct keys, which is
  what `JSON.parse` can produce since later duplicate keys overwrite earlier
  ones).
- A `Buffer` holding message bytes is observed by the code only through
  `JSON.parse(buf.toString())`, so buffer contents are modelled by their
  parse result: `Buf.json j` is a buffer whose bytes are valid JSON text
  denoting `j`, and `Buf.malformed s` is a buffer whose bytes are not valid
  JSON.  `serialiseMessage` (`Buffer.from(JSON.stringify m)`) therefore
  produces `Buf.json m`, and `deserialiseMessage` (`JSON.parse`) succeeds
  exactly on `Buf.json`.
- A thrown JavaScript exception is an `Except.error` with a `JsErr` payload.
- Header buffers (`Buffer.from(channel)`) are only ever read back with
  `.toString()`, so header values are modelled directly by that string.
-/

namespace KafkaPubSub

/-- JSON-serializable JavaScript values. -/
inductive Json where
  | null
  | bool (b : Bool)
  | num (n : Int)
  | str (s : String)
  | arr (xs : List Json)
  | obj (fields : List (String × Json))

/-- Message byte buffers, observed through their JSON parse result. -/
inductive Buf where
  | json (j : Json)
  | malformed (s : String)

/-- JavaScript exceptions thrown by the code paths modelled here. -/
inductive JsErr where
  | syntaxError
  | typeError
  | thrown (msg : String)
deriving DecidableEq

/-- Values passed around by the engine: raw buffers, parsed JSON, or
JavaScript undefined (a missing object field). -/
inductive JsVal where
  | buf (b : Buf)
  | json (j : Json)
  | undef

/-- Embeds `serialiseMessage(message) = Buffer.from(JSON.stringify(message))`. -/
def serialiseMessage (message : Json) : Buf := Buf.json message

/-- Embeds `deserialiseMessage(message) = JSON.parse(message.toString())`;
JSON.parse throws a SyntaxError on text that is not valid JSON. -/
def deserialiseMessage (message : Buf) : Except JsErr Json :=
  match message with
  | Buf.json j => Except.ok j
  | Buf.malformed _ => Except.error JsErr.syntaxError

/-- JavaScript truthiness of a JSON value. -/
def Json.truthy : Json → Bool
  | Json.null => false
  | Json.bool b => b
  | Json.num n => n != 0
  | Json.str s => s != ""
  | Json.arr _ => true
  | Json.obj _ => true

/-- JavaScript property access `base.k` on a parsed JSON value.  `JSON.parse`
can return `null`, and property access on a null base throws a TypeError;
on an object it yields the field when present and undefined otherwise; on a
number, string, boolean or array it yields undefined for the non-built-in
keys `channel` and `payload` read by this code (primitives are boxed, they
do not throw). -/
def getField : Json → String → Except JsErr (Option Json)
  | Json.null, _ => Except.error JsErr.typeError
  | Json.obj fields, k => Except.ok (fields.lookup k)
  | _, _ => Except.ok none

/-- Truthiness of a possibly-undefined field (`if (parsedMessage.channel)`). -/
def fieldTruthy : Option Json → Bool
  | some j => j.truthy
  | none => false

mutual

/-- JavaScript ToString coercion of a JSON value, as applied by
`EventEmitter` when a non-string value is used as an event name. -/
def jsToString : Json → String
  | Json.null => "null"
  | Json.bool b => cond b "true" "false"
  | Json.num n => toString n
  | Json.str s => s
  | Json.arr xs => jsArrString xs
  | Json.obj _ => "[object Object]"

/-- Array.prototype.toString: elements joined by commas, null rendered empty. -/
def jsArrString : List Json → String
  | [] => ""
  | [Json.null] => ""
  | [v] => jsToString v
  | Json.null :: rest => "," ++ jsArrString rest
  | v :: rest => jsToString v ++ "," ++ jsArrString rest

end

/-- Event name used for `ee.emit(parsedMessage.channel, ...)`; the `none`
case (undefined) is unreachable because the code only emits a truthy field. -/
def emitName : Option Json → String
  | some j => jsToString j
  | none => "undefined"

/-- Engine configuration (`IKafkaOptions`); `useHeaders` absent behaves as
`false`, which `Bool` captures.  `globalConfig`/`topicConfig`/`logger` are
passthrough settings with no bearing on the modelled behaviour. -/
structure Options where
  topic : String
  host : String
  port : Option String
  groupId : Option String
  useHeaders : Bool
  keyFun : Option (Json → Buf)

/-- Embeds `brokerList()`: `options.port ? host:port : host` (an empty
port string is falsy in JavaScript). -/
def brokerList (opts : Options) : String :=
  match opts.port with
  | some p => if p == "" then opts.host else opts.host ++ ":" ++ p
  | none => opts.host

/-- A Kafka message header object (node-rdkafka delivers headers as an array
of single-entry objects); values are modelled by their `.toString()`. -/
abbrev HeaderObj := List (String × String)

/-- An inbound broker message as seen by the `data` handler: only `value`
and `headers` are read by the code. -/
structure KMessage where
  value : Buf
  headers : Option (List HeaderObj)

/-- Embeds `message.headers.find(header => "channel" in header)`. -/
def hasChannelKey (h : HeaderObj) : Bool :=
  h.any (fun kv => kv.1 == "channel")

/-- Embeds the header lookup `channelHeader.channel.toString()` composed with
the `find`.  The inner lookup cannot fail when `find?` succeeds, because the
`find?` predicate requires the key, so conflating both failures into `none`
is faithful. -/
def findChannelValue (hs : List HeaderObj) : Option String :=
  (hs.find? hasChannelKey).bind (fun h => h.lookup "channel")

/-- Observable outcome of one run of the `data` handler (before listener
dispatch): either an `ee.emit(channel, value)` call or the
`logger.warn("Missing 'channel' header")` drop. -/
inductive HandlerOut where
  | emitted (channel : String) (v : JsVal)
  | warnedMissingHeader

/-- Embeds the `else` branch of the `data` handler (lines 228-237): parse the
value, then evaluate `if (parsedMessage.channel)` — which itself throws a
TypeError when the parsed value is null — and route by the truthiness of the
field, falling back to the configured topic.  Property-access errors
propagate out of the handler exactly like the parse error, since the
handler has no try/catch. -/
def envelopeBranch (opts : Options) (value : Buf) : Except JsErr HandlerOut :=
  match deserialiseMessage value with
  | Except.error e => Except.error e
  | Except.ok parsed =>
    match getField parsed "channel" with
    | Except.error e => Except.error e
    | Except.ok chField =>
      if fieldTruthy chField then
        match getField parsed "payload" with
        | Except.error e => Except.error e
        | Except.ok payloadField =>
          Except.ok (HandlerOut.emitted (emitName chField)
            (match payloadField with
             | some j => JsVal.json j
             | none => JsVal.undef))
      else
        Except.ok (HandlerOut.emitted opts.topic (JsVal.json parsed))

/-- Embeds the consumer `data` handler (lines 215-239).  The header branch is
taken when `options.useHeaders && message.headers` is truthy (an array is
always truthy, undefined never is); it emits the raw value buffer.  Every
other message takes the envelope branch. -/
def dataHandler (opts : Options) (msg : KMessage) : Except JsErr HandlerOut :=
  match opts.useHeaders, msg.headers with
  | true, some hs =>
    match findChannelValue hs with
    | some ch => Except.ok (HandlerOut.emitted ch (JsVal.buf msg.value))
    | none => Except.ok HandlerOut.warnedMissingHeader
  | true, none => envelopeBranch opts msg.value
  | false, _ => envelopeBranch opts msg.value

/-- One EventEmitter registration made by `subscribe`: the listener identity
is the subscription id of the `internalMessage` closure created there. -/
structure Sub where
  id : Nat
  channel : String
deriving DecidableEq

/-- Embeds the `internalMessage` wrapper of `subscribe`: in header mode it
deserialises the first argument before calling `onMessage`; otherwise it
forwards the argument unchanged.  The non-buffer case in header mode is
reached only on the mixed path where `useHeaders` is set but a message
arrives without headers, so the envelope branch emits an already-parsed
value and the wrapper evaluates `JSON.parse(String(v))`: depending on the
printed text that call can succeed (a numeric payload) or throw (an object
payload).  The model flattens this corner to a SyntaxError; none of the
theorems below evaluates `internalMessage` at a non-buffer argument, so
nothing proved here rests on that choice. -/
def internalMessage (useHeaders : Bool) (v : JsVal) : Except JsErr JsVal :=
  if useHeaders then
    match v with
    | JsVal.buf b => (deserialiseMessage b).map JsVal.json
    | _ => Except.error JsErr.syntaxError
  else
    Except.ok v

/-- Embeds `ee.emit(ch, v)` over the listener list in registration order,
with Node semantics: listeners run synchronously in order; an exception
thrown by a wrapper or by the user callback propagates out of `emit`
immediately, skipping the remaining listeners.  `cb i arg` gives the user
callback behaviour for subscription `i`: `some e` means it throws `e` after
receiving `arg`.  Returns the arguments actually delivered to user
callbacks, paired with the exception that escaped, if any. -/
def emitRun (useHeaders : Bool) (cb : Nat → JsVal → Option JsErr) :
    List Sub → String → JsVal → List (Nat × JsVal) × Option JsErr
  | [], _, _ => ([], none)
  | s :: rest, ch, v =>
    if s.channel == ch then
      match internalMessage useHeaders v with
      | Except.error e => ([], some e)
      | Except.ok arg =>
        match cb s.id arg with
        | some e => ([(s.id, arg)], some e)
        | none =>
          let r := emitRun useHeaders cb rest ch v
          ((s.id, arg) :: r.1, r.2)
    else
      emitRun useHeaders cb rest ch v

/-- Result of running the `data` handler on one message and dispatching to
the registered listeners. -/
structure ConsumeResult where
  deliveries : List (Nat × JsVal)
  thrown : Option JsErr
  warned : Bool

/-- Full inbound path for one message: `data` handler, then EventEmitter
dispatch through the `internalMessage` wrappers. -/
def consumeDeliver (opts : Options) (cb : Nat → JsVal → Option JsErr)
    (subs : List Sub) (msg : KMessage) : ConsumeResult :=
  match dataHandler opts msg with
  | Except.error e => { deliveries := [], thrown := some e, warned := false }
  | Except.ok HandlerOut.warnedMissingHeader =>
    { deliveries := [], thrown := none, warned := true }
  | Except.ok (HandlerOut.emitted ch v) =>
    let r := emitRun opts.useHeaders cb subs ch v
    { deliveries := r.1, thrown := r.2, warned := false }

/-- Arguments of the `producer.produce(...)` call made by `publish`
(lines 64-79); partition and timestamp carry no routing information and are
omitted. -/
structure ProduceArgs where
  topic : String
  value : Buf
  key : Option Buf
  headers : Option (List HeaderObj)

/-- Embeds the encoding done by `publish` (lines 52-71): in envelope mode
the payload is wrapped as `{channel, payload}`; in header mode the payload
is sent bare with a single `{channel: Buffer.from(channel)}` header. -/
def produceArgs (opts : Options) (channel : String) (payload : Json) : ProduceArgs :=
  let kafkaPayload :=
    if opts.useHeaders then payload
    else Json.obj [("channel", Json.str channel), ("payload", payload)]
  { topic := opts.topic
    value := serialiseMessage kafkaPayload
    key := match opts.keyFun with
           | some f => some (f kafkaPayload)
           | none => none
    headers := if opts.useHeaders then some [[("channel", channel)]] else none }

/-- The produced record as it reaches the consumer of the same topic. -/
def toKMessage (a : ProduceArgs) : KMessage :=
  { value := a.value, headers := a.headers }

/-!
Connection lifecycle.  `this.producer` / `this.consumer` hold a promise that
is assigned synchronously (no await between the `if (!this.producer)` check
and the assignment), so concurrent callers on the JavaScript event loop are
serialized at that check; the model therefore applies engine operations
sequentially and stores each promise by its eventual settlement.  The broker
environment supplies the topic list the `ready` handler receives in its
metadata.
-/

/-- Broker-side environment: the topic names listed in the metadata passed
to the `ready` event. -/
structure BrokerEnv where
  topics : List String

/-- Settlement of a memoized connection promise: resolved with a connected
client, or rejected with the value passed to `reject`. -/
inductive ConnOutcome where
  | ready
  | failed (e : String)
deriving DecidableEq

/-- The exact rejection value used by both `ready` handlers. -/
def topicErr : String := "Could not find requested topic %s"

/-- Outcome of one creation sequence under `env`: the `ready` handler checks
`metadata.topics` for the configured topic, resolving on success and calling
`disconnect()` then `reject(...)` on failure.  The second component records
whether `disconnect()` was called during the sequence. -/
def creationResult (opts : Options) (env : BrokerEnv) : ConnOutcome × Bool :=
  if env.topics.contains opts.topic then (ConnOutcome.ready, false)
  else (ConnOutcome.failed topicErr, true)

/-- Mutable state of one `KafkaPubSub` instance.  `eeListeners` is the
EventEmitter registration list in order; `subscriptions` is the id-indexed
registry; the counters record how many creation sequences started and how
many `disconnect()` calls the `ready` handlers made. -/
structure EngineState where
  producer : Option ConnOutcome
  consumer : Option ConnOutcome
  producerCreations : Nat
  consumerCreations : Nat
  producerDisconnects : Nat
  consumerDisconnects : Nat
  eeListeners : List Sub
  subscriptions : List (Nat × String)
  subIdCounter : Nat
deriving DecidableEq

/-- State of a freshly constructed engine. -/
def initialState : EngineState :=
  { producer := none, consumer := none,
    producerCreations := 0, consumerCreations := 0,
    producerDisconnects := 0, consumerDisconnects := 0,
    eeListeners := [], subscriptions := [], subIdCounter := 0 }

/-- Awaiting a memoized connection promise (`Promise.all([p]).then(() => {})`):
it rethrows the rejection value. -/
def awaitOutcome : Option ConnOutcome → Except String Unit
  | some (ConnOutcome.failed e) => Except.error e
  | _ => Except.ok ()

/-- Embeds `createProducer` (lines 148-190): start a creation sequence only
when no producer promise exists, then await the memoized promise.  The
`return Promise.all([this.producer]).then(() => {})` sits outside the guard,
so every call awaits the memoized outcome. -/
def createProducer (opts : Options) (env : BrokerEnv) (s : EngineState) :
    EngineState × Except String Unit :=
  let s' :=
    if s.producer.isSome then s
    else
      let r := creationResult opts env
      { s with producer := some r.1,
               producerCreations := s.producerCreations + 1,
               producerDisconnects := s.producerDisconnects + cond r.2 1 0 }
  (s', awaitOutcome s'.producer)

/-- Embeds `createConsumer` (lines 192-269): start a creation sequence only
when no consumer promise exists.  Unlike `createProducer`, the
`return Promise.all([this.consumer]).then(() => {})` sits inside the guard,
so a call that finds the promise already memoized returns undefined at once
without awaiting it, and in particular without surfacing its rejection. -/
def createConsumer (opts : Options) (env : BrokerEnv) (s : EngineState) :
    EngineState × Except String Unit :=
  if s.consumer.isSome then
    (s, Except.ok ())
  else
    let r := creationResult opts env
    let s' := { s with consumer := some r.1,
                       consumerCreations := s.consumerCreations + 1,
                       consumerDisconnects := s.consumerDisconnects + cond r.2 1 0 }
    (s', awaitOutcome s'.consumer)

/-- Embeds `publish` (lines 48-80): await `createProducer()` (rejections
propagate), then call `produce`; `produceErr` is the error the broker passes
to the produce callback, if any. -/
def publish (opts : Options) (env : BrokerEnv) (produceErr : Option String)
    (channel : String) (payload : Json) (s : EngineState) :
    EngineState × Except String ProduceArgs :=
  match createProducer opts env s with
  | (s', Except.error e) => (s', Except.error e)
  | (s', Except.ok _) =>
    match produceErr with
    | some e => (s', Except.error e)
    | none => (s', Except.ok (produceArgs opts channel payload))

/-- Embeds `subscribe` (lines 82-97): await `createConsumer()`, register the
`internalMessage` closure on the EventEmitter, increment the id counter,
record the subscription and return the new id. -/
def subscribe (opts : Options) (env : BrokerEnv) (channel : String)
    (s : EngineState) : EngineState × Except String Nat :=
  match createConsumer opts env s with
  | (s', Except.error e) => (s', Except.error e)
  | (s', Except.ok _) =>
    let newId := s'.subIdCounter + 1
    ({ s' with eeListeners := s'.eeListeners ++ [{ id := newId, channel := channel }],
               subIdCounter := newId,
               subscriptions := s'.subscriptions ++ [(newId, channel)] },
     Except.ok newId)

/-- Node `removeListener` removes the most recently added matching listener
from the event list: drop the last occurrence. -/
def removeListenerLast (l : List Sub) (ch : String) (i : Nat) : List Sub :=
  (removeFirstSub l.reverse ch i).reverse
where
  removeFirstSub : List Sub → String → Nat → List Sub
    | [], _, _ => []
    | s :: rest, ch, i =>
      if s.channel == ch && s.id == i then rest
      else s :: removeFirstSub rest ch i

/-- Embeds `unsubscribe` (lines 99-104): `this.subscriptions[index]` is
undefined for an unknown id, and destructuring undefined throws a TypeError
before any state is touched; otherwise the id entry is deleted and the
listener removed from the EventEmitter. -/
def unsubscribe (idx : Nat) (s : EngineState) : EngineState × Except JsErr Unit :=
  match s.subscriptions.lookup idx with
  | none => (s, Except.error JsErr.typeError)
  | some channel =>
    ({ s with subscriptions := s.subscriptions.filter (fun p => p.1 != idx),
              eeListeners := removeListenerLast s.eeListeners channel idx },
     Except.ok ())

/-- Caller-visible operations on one engine instance. -/
inductive EngineOp where
  | pub (produceErr : Option String) (channel : String) (payload : Json)
  | sub (channel : String)
  | unsub (idx : Nat)

/-- State transition of one operation (the returned value is dropped). -/
def applyOp (opts : Options) (env : BrokerEnv) (s : EngineState) : EngineOp → EngineState
  | EngineOp.pub pe c p => (publish opts env pe c p s).1
  | EngineOp.sub c => (subscribe opts env c s).1
  | EngineOp.unsub i => (unsubscribe i s).1

/-- Run a sequence of engine operations. -/
def runOps (opts : Options) (env : BrokerEnv) (ops : List EngineOp)
    (s : EngineState) : EngineState :=
  ops.foldl (applyOp opts env) s

/-!
Model of `close()` (lines 106-134).  Each side builds
`new Promise(async (resolve, reject) => { if (this.X) { (await this.X).disconnect(cb) } })`:
- if the field was never assigned, the executor body is skipped and the
  promise never settles;
- if the memoized promise is rejected, `await this.X` throws inside the
  async executor, so neither `resolve` nor `reject` is ever called and the
  promise never settles;
- if it is fulfilled, `disconnect` runs and the callback settles the
  promise.
The two sides are then combined with `Promise.all`, which rejects with the
first rejection to arrive and otherwise resolves once both resolve.
-/

/-- Per-side situation at the time `close()` is called: no handle field, a
rejected handle promise, or a connected client whose `disconnect` callback
reports `discErr`. -/
inductive SideState where
  | absent
  | failed
  | connected (discErr : Option String)
deriving DecidableEq

/-- Settlement of one side promise built by `close()`. -/
inductive SettledAs where
  | resolved
  | rejected (e : String)
deriving DecidableEq

/-- How (and whether) the side promise settles; `none` means it stays
pending forever. -/
def sidePromise : SideState → Option SettledAs
  | SideState.absent => none
  | SideState.failed => none
  | SideState.connected none => some SettledAs.resolved
  | SideState.connected (some e) => some (SettledAs.rejected e)

/-- Result of the promise `close()` returns. -/
inductive CloseOutcome where
  | pending
  | resolved
  | rejected (e : String)
deriving DecidableEq

/-- Rejection carried by a settlement, if any. -/
def settledRejection : Option SettledAs → Option String
  | some (SettledAs.rejected e) => some e
  | _ => none

/-- Embeds `Promise.all([p, c])`: rejected with the first rejection in
arrival order (`prodFirst` says the producer side settles first when both
settle), resolved when both resolve, pending otherwise. -/
def promiseAll2 (prodFirst : Bool) (p c : Option SettledAs) : CloseOutcome :=
  let first := if prodFirst then settledRejection p else settledRejection c
  let second := if prodFirst then settledRejection c else settledRejection p
  match first with
  | some e => CloseOutcome.rejected e
  | none =>
    match second with
    | some e => CloseOutcome.rejected e
    | none =>
      if p = some SettledAs.resolved ∧ c = some SettledAs.resolved then
        CloseOutcome.resolved
      else CloseOutcome.pending

/-- Embeds `close()`: both side promises are constructed (their executors run
immediately), and the result is their `Promise.all`. -/
def closeOutcome (prodFirst : Bool) (p c : SideState) : CloseOutcome :=
  promiseAll2 prodFirst (sidePromise p) (sidePromise c)

/-- Whether `close()` reaches a `disconnect()` call on a side. -/
def closeDisconnects : SideState → Bool
  | SideState.connected _ => true
  | _ => false

/-- Errors the caller of `close()` can observe in its settlement. -/
def closeReported : CloseOutcome → List String
  | CloseOutcome.rejected e => [e]
  | _ => []

/-- Disconnect error of a side, if that side exists, connects and fails. -/
def sideError : SideState → Option String
  | SideState.connected (some e) => some e
  | _ => none

/-- Sample configuration used by concrete witnesses and counterexamples. -/
def sampleOpts (useHeaders : Bool) : Options :=
  { topic := "t", host := "localhost", port := some "9092", groupId := none,
    useHeaders := useHeaders, keyFun := none }

/-- A user callback that never throws. -/
def cbNone : Nat → JsVal → Option JsErr := fun _ _ => none

/-- A user callback whose listener with id 1 throws. -/
def cbBoom : Nat → JsVal → Option JsErr :=
  fun i _ => if i == 1 then some (JsErr.thrown "boom") else none

/-- Broker metadata that does not list topic `t`. -/
def envMissing : BrokerEnv := { topics := ["other-topic"] }

/-- C1, amended: the publish/consume/dispatch round trip delivers exactly the
published payload to a previously registered listener on the same channel,
for every channel in header mode, and for every non-empty channel in
envelope mode (an empty channel is falsy, so the envelope decoder reroutes
the message to the configured topic instead).  The delivered argument does
not depend on whether the listener itself throws. -/
theorem c1_round_trip :
    (∀ (opts : Options) (c : String) (p : Json) (i : Nat)
       (cb : Nat → JsVal → Option JsErr), opts.useHeaders = true →
       (consumeDeliver opts cb [{ id := i, channel := c }]
         (toKMessage (produceArgs opts c p))).deliveries = [(i, JsVal.json p)]) ∧
    (∀ (opts : Options) (c : String) (p : Json) (i : Nat)
       (cb : Nat → JsVal → Option JsErr), opts.useHeaders = false → c ≠ "" →
       (consumeDeliver opts cb [{ id := i, channel := c }]
         (toKMessage (produceArgs opts c p))).deliveries = [(i, JsVal.json p)]) := by
  constructor
  · intro opts c p i cb h
    simp [consumeDeliver, dataHandler, produceArgs, toKMessage, h,
      findChannelValue, hasChannelKey, serialiseMessage, emitRun,
      internalMessage, deserialiseMessage, List.lookup, Except.map]
    cases hcb : cb i (JsVal.json p) <;> simp [hcb]
  · intro opts c p i cb h hc
    simp [consumeDeliver, dataHandler, produceArgs, toKMessage, h,
      envelopeBranch, serialiseMessage, deserialiseMessage, getField,
      List.lookup, fieldTruthy, Json.truthy, hc, emitName, jsToString,
      emitRun, internalMessage]
    cases cb i (JsVal.json p) <;> simp

/-- C1 witness: the round trip at a concrete channel and payload in both
modes. -/
theorem c1_round_trip_witness :
    (consumeDeliver (sampleOpts true) cbNone [{ id := 1, channel := "orders" }]
      (toKMessage (produceArgs (sampleOpts true) "orders" (Json.num 42)))).deliveries
      = [(1, JsVal.json (Json.num 42))] ∧
    (consumeDeliver (sampleOpts false) cbNone [{ id := 1, channel := "orders" }]
      (toKMessage (produceArgs (sampleOpts false) "orders" (Json.num 42)))).deliveries
      = [(1, JsVal.json (Json.num 42))] :=
  ⟨c1_round_trip.1 (sampleOpts true) "orders" (Json.num 42) 1 cbNone rfl,
   c1_round_trip.2 (sampleOpts false) "orders" (Json.num 42) 1 cbNone rfl
     (by decide)⟩

/-- C1 counterexample: with the empty channel in envelope mode, a listener
subscribed to that exact channel receives nothing — `parsedMessage.channel`
is falsy, so the message is rerouted to the configured topic. -/
theorem c1_empty_channel_cex :
    (consumeDeliver (sampleOpts false) cbNone [{ id := 1, channel := "" }]
      (toKMessage (produceArgs (sampleOpts false) "" (Json.num 1)))).deliveries
      = [] := rfl

/-- C3, amended: a header-mode message whose headers are present but carry no
`channel` header is dropped with a warning, without deliveries and without
raising; but in envelope mode a value that cannot be deserialised makes
`JSON.parse` throw, and with no try/catch in the `data` handler the
exception escapes the handler instead of the message being dropped and
logged. -/
theorem c3_decode_failures :
    (∀ (opts : Options) (cb : Nat → JsVal → Option JsErr) (subs : List Sub)
       (msg : KMessage) (hs : List HeaderObj),
       opts.useHeaders = true → msg.headers = some hs →
       findChannelValue hs = none →
       consumeDeliver opts cb subs msg
         = { deliveries := [], thrown := none, warned := true }) ∧
    (∀ (opts : Options) (cb : Nat → JsVal → Option JsErr) (subs : List Sub)
       (hdrs : Option (List HeaderObj)) (raw : String),
       opts.useHeaders = false →
       consumeDeliver opts cb subs { value := Buf.malformed raw, headers := hdrs }
         = { deliveries := [], thrown := some JsErr.syntaxError, warned := false }) := by
  constructor
  · intro opts cb subs msg hs h hh hfind
    simp [consumeDeliver, dataHandler, h, hh, hfind]
  · intro opts cb subs hdrs raw h
    simp [consumeDeliver, dataHandler, h, envelopeBranch, deserialiseMessage]

/-- C3 witness: a headers-present message without a channel header is dropped
with a warning and nothing thrown. -/
theorem c3_decode_failures_witness :
    consumeDeliver (sampleOpts true) cbNone []
      { value := Buf.json Json.null, headers := some [[("other", "x")]] }
      = { deliveries := [], thrown := none, warned := true } :=
  c3_decode_failures.1 (sampleOpts true) cbNone []
    { value := Buf.json Json.null, headers := some [[("other", "x")]] }
    [[("other", "x")]] rfl rfl rfl

/-- C3 counterexample: an envelope-mode message whose value is not valid
JSON makes the `data` handler raise a SyntaxError — the claim that the
handler never raises an exception is false. -/
theorem c3_envelope_throw_cex :
    (consumeDeliver (sampleOpts false) cbNone []
      { value := Buf.malformed "not json", headers := none }).thrown
      = some JsErr.syntaxError ∧
    (some JsErr.syntaxError ≠ (none : Option JsErr)) :=
  ⟨rfl, by decide⟩

/-- C5, amended: an envelope-mode message whose deserialised value answers
the `channel` property access with undefined — it has no `channel` field and
is not null — is emitted on the channel equal to the configured topic name,
and a listener subscribed to the topic name receives the whole parsed
value; but when the deserialised value is null, the property access itself
throws a TypeError out of the `data` handler and nothing is dispatched. -/
theorem c5_envelope_fallback :
    (∀ (opts : Options) (cb : Nat → JsVal → Option JsErr) (i : Nat)
      (msg : KMessage) (j : Json),
      opts.useHeaders = false → msg.value = Buf.json j →
      getField j "channel" = Except.ok none →
      dataHandler opts msg = Except.ok (HandlerOut.emitted opts.topic (JsVal.json j)) ∧
      consumeDeliver opts cb [{ id := i, channel := opts.topic }] msg
        = { deliveries := [(i, JsVal.json j)], thrown := cb i (JsVal.json j),
            warned := false }) ∧
    (∀ (opts : Options) (cb : Nat → JsVal → Option JsErr) (subs : List Sub)
      (hdrs : Option (List HeaderObj)),
      opts.useHeaders = false →
      consumeDeliver opts cb subs { value := Buf.json Json.null, headers := hdrs }
        = { deliveries := [], thrown := some JsErr.typeError, warned := false }) := by
  constructor
  · intro opts cb i msg j h hv hch
    have hdl : dataHandler opts msg
        = Except.ok (HandlerOut.emitted opts.topic (JsVal.json j)) := by
      simp [dataHandler, h, envelopeBranch, hv, deserialiseMessage, hch, fieldTruthy]
    refine ⟨hdl, ?_⟩
    simp [consumeDeliver, hdl, emitRun, h, internalMessage]
    cases hcb : cb i (JsVal.json j) <;> simp [hcb]
  · intro opts cb subs hdrs h
    simp [consumeDeliver, dataHandler, h, envelopeBranch, deserialiseMessage,
      getField]

/-- C5 witness: the fallback at a concrete channel-less message. -/
theorem c5_envelope_fallback_witness :
    consumeDeliver (sampleOpts false) cbNone [{ id := 1, channel := "t" }]
      { value := Buf.json (Json.obj [("x", Json.num 1)]), headers := none }
      = { deliveries := [(1, JsVal.json (Json.obj [("x", Json.num 1)]))],
          thrown := none, warned := false } :=
  (c5_envelope_fallback.1 (sampleOpts false) cbNone 1
    { value := Buf.json (Json.obj [("x", Json.num 1)]), headers := none }
    (Json.obj [("x", Json.num 1)]) rfl rfl rfl).2

/-- C5 counterexample: the value `null` deserialises to a value with no
`channel` field, yet a listener subscribed to the topic name receives
nothing — the handler throws a TypeError at `if (parsedMessage.channel)`
instead of dispatching to the configured topic. -/
theorem c5_null_value_cex :
    consumeDeliver (sampleOpts false) cbNone [{ id := 1, channel := "t" }]
      { value := Buf.json Json.null, headers := none }
      = { deliveries := [], thrown := some JsErr.typeError, warned := false } ∧
    (some JsErr.typeError ≠ (none : Option JsErr)) :=
  ⟨rfl, by decide⟩

/-- C6, amended: in header mode the `data` handler emits the raw
undeserialised value buffer to the EventEmitter, but the `internalMessage`
wrapper installed by `subscribe` deserialises it before invoking the
subscriber's callback, so the argument the subscriber receives is the
parsed JSON value, not raw bytes. -/
theorem c6_header_mode_delivery :
    ∀ (opts : Options) (msg : KMessage) (hs : List HeaderObj) (ch : String)
      (j : Json) (i : Nat) (cb : Nat → JsVal → Option JsErr),
      opts.useHeaders = true → msg.headers = some hs →
      findChannelValue hs = some ch → msg.value = Buf.json j →
      dataHandler opts msg = Except.ok (HandlerOut.emitted ch (JsVal.buf msg.value)) ∧
      consumeDeliver opts cb [{ id := i, channel := ch }] msg
        = { deliveries := [(i, JsVal.json j)], thrown := cb i (JsVal.json j),
            warned := false } := by
  intro opts msg hs ch j i cb h hh hfind hv
  have hdl : dataHandler opts msg
      = Except.ok (HandlerOut.emitted ch (JsVal.buf msg.value)) := by
    simp [dataHandler, h, hh, hfind]
  refine ⟨hdl, ?_⟩
  simp [consumeDeliver, hdl, emitRun, h, internalMessage, hv,
    deserialiseMessage, Except.map]
  cases hcb : cb i (JsVal.json j) <;> simp [hcb]

/-- C6 witness: a concrete header-mode message delivered to its subscriber. -/
theorem c6_header_mode_delivery_witness :
    consumeDeliver (sampleOpts true) cbNone [{ id := 1, channel := "c" }]
      (toKMessage (produceArgs (sampleOpts true) "c" (Json.str "x")))
      = { deliveries := [(1, JsVal.json (Json.str "x"))], thrown := none,
          warned := false } :=
  (c6_header_mode_delivery (sampleOpts true)
    (toKMessage (produceArgs (sampleOpts true) "c" (Json.str "x")))
    [[("channel", "c")]] "c" (Json.str "x") 1 cbNone rfl rfl rfl rfl).2

/-- C6 counterexample: for a concrete header-mode message the argument the
subscriber callback receives is the parsed JSON value, which is not the raw
buffer value of the message — the engine does parse before invoking the
subscriber's callback. -/
theorem c6_parsed_not_raw_cex :
    (consumeDeliver (sampleOpts true) cbNone [{ id := 1, channel := "c" }]
      (toKMessage (produceArgs (sampleOpts true) "c" (Json.str "x")))).deliveries
      = [(1, JsVal.json (Json.str "x"))] ∧
    JsVal.json (Json.str "x")
      ≠ JsVal.buf (toKMessage (produceArgs (sampleOpts true) "c" (Json.str "x"))).value :=
  ⟨rfl, fun h => JsVal.noConfusion h⟩

/-- C7, amended: `ee.emit` invokes exactly the listeners registered for the
channel, in registration order; but listeners are not decoupled: when one
throws, the exception propagates out of the emit immediately and the
listeners registered after it are not invoked for that dispatch. -/
theorem c7_dispatch_order :
    (∀ (u : Bool) (cb : Nat → JsVal → Option JsErr) (subs : List Sub)
       (ch : String) (v arg : JsVal),
       internalMessage u v = Except.ok arg → (∀ i, cb i arg = none) →
       emitRun u cb subs ch v
         = ((subs.filter (fun s => s.channel == ch)).map (fun s => (s.id, arg)),
            none)) ∧
    (∀ (u : Bool) (cb : Nat → JsVal → Option JsErr) (s1 : Sub)
       (rest : List Sub) (ch : String) (v arg : JsVal) (e : JsErr),
       internalMessage u v = Except.ok arg → s1.channel = ch →
       cb s1.id arg = some e →
       emitRun u cb (s1 :: rest) ch v = ([(s1.id, arg)], some e)) := by
  constructor
  · intro u cb subs ch v arg harg hcb
    induction subs with
    | nil => simp [emitRun]
    | cons s rest ih =>
      cases hch : s.channel == ch <;>
        simp [emitRun, hch, harg, hcb, ih, List.filter_cons]
  · intro u cb s1 rest ch v arg e harg hch hcb
    simp [emitRun, hch, harg, hcb]

/-- C7 witness: with two listeners on the channel and one listener on
another channel, a dispatch with no throwing listener reaches exactly the
two matching listeners in registration order. -/
theorem c7_dispatch_order_witness :
    emitRun false cbNone
      [{ id := 1, channel := "c" }, { id := 3, channel := "d" },
       { id := 2, channel := "c" }] "c" (JsVal.json Json.null)
      = ([(1, JsVal.json Json.null), (2, JsVal.json Json.null)], none) :=
  c7_dispatch_order.1 false cbNone
    [{ id := 1, channel := "c" }, { id := 3, channel := "d" },
     { id := 2, channel := "c" }] "c" (JsVal.json Json.null)
    (JsVal.json Json.null) rfl (fun _ => rfl)

/-- C7 counterexample: the first listener throws and the second listener on
the same channel is never invoked for that dispatch — listeners are not
decoupled. -/
theorem c7_no_decoupling_cex :
    emitRun false cbBoom
      [{ id := 1, channel := "c" }, { id := 2, channel := "c" }] "c"
      (JsVal.json Json.null)
      = ([(1, JsVal.json Json.null)], some (JsErr.thrown "boom")) ∧
    (emitRun false cbBoom
      [{ id := 1, channel := "c" }, { id := 2, channel := "c" }] "c"
      (JsVal.json Json.null)).1.all (fun d => d.1 != 2) = true :=
  ⟨rfl, rfl⟩

/-- C9: `unsubscribe` with an id that is not in the registry throws (the
destructuring of the undefined registry entry raises a TypeError) before any
mutation, so the error is surfaced to the caller and the whole engine state
— every other registry entry and every EventEmitter registration — is left
unchanged. -/
theorem c9_unknown_unsubscribe :
    ∀ (s : EngineState) (idx : Nat), s.subscriptions.lookup idx = none →
      unsubscribe idx s = (s, Except.error JsErr.typeError) := by
  intro s idx h
  simp [unsubscribe, h]

/-- C9 witness: unsubscribing id 5 from an engine holding one subscription
with id 1 fails and changes nothing. -/
theorem c9_unknown_unsubscribe_witness :
    unsubscribe 5 ((subscribe (sampleOpts false) { topics := ["t"] } "c"
        initialState).1)
      = ((subscribe (sampleOpts false) { topics := ["t"] } "c" initialState).1,
         Except.error JsErr.typeError) :=
  c9_unknown_unsubscribe
    ((subscribe (sampleOpts false) { topics := ["t"] } "c" initialState).1) 5 rfl

/-!
Helper lemmas for the connection-lifecycle invariants.
-/

/-- The engine state publish leaves behind is the one createProducer leaves
behind, whatever the awaited and produce outcomes are. -/
theorem publish_fst (opts : Options) (env : BrokerEnv) (pe : Option String)
    (c : String) (p : Json) (s : EngineState) :
    (publish opts env pe c p s).1 = (createProducer opts env s).1 := by
  unfold publish
  rcases hcp : createProducer opts env s with ⟨s', r⟩
  cases r <;> cases pe <;> rfl

/-- createProducer does not touch consumer-side fields or the registry. -/
theorem createProducer_other_fields (opts : Options) (env : BrokerEnv)
    (s : EngineState) :
    (createProducer opts env s).1.consumer = s.consumer ∧
    (createProducer opts env s).1.consumerCreations = s.consumerCreations ∧
    (createProducer opts env s).1.eeListeners = s.eeListeners ∧
    (createProducer opts env s).1.subscriptions = s.subscriptions ∧
    (createProducer opts env s).1.subIdCounter = s.subIdCounter := by
  unfold createProducer
  cases h : s.producer.isSome <;> simp [h]

/-- createConsumer does not touch producer-side fields or the registry. -/
theorem createConsumer_other_fields (opts : Options) (env : BrokerEnv)
    (s : EngineState) :
    (createConsumer opts env s).1.producer = s.producer ∧
    (createConsumer opts env s).1.producerCreations = s.producerCreations ∧
    (createConsumer opts env s).1.eeListeners = s.eeListeners ∧
    (createConsumer opts env s).1.subscriptions = s.subscriptions ∧
    (createConsumer opts env s).1.subIdCounter = s.subIdCounter := by
  unfold createConsumer
  cases h : s.consumer.isSome <;> simp [h]

/-- A memoized producer promise is never replaced and no further creation
sequence starts. -/
theorem createProducer_memoized (opts : Options) (env : BrokerEnv)
    (s : EngineState) (h : s.producer.isSome = true) :
    (createProducer opts env s).1 = s := by
  unfold createProducer
  simp [h]

/-- A memoized consumer promise is never replaced, no further creation
sequence starts, and the call returns undefined at once. -/
theorem createConsumer_memoized (opts : Options) (env : BrokerEnv)
    (s : EngineState) (h : s.consumer.isSome = true) :
    createConsumer opts env s = (s, Except.ok ()) := by
  unfold createConsumer
  simp [h]

/-- Producer field and creation count after one engine operation: once the
field holds a promise, every operation keeps it and the count. -/
theorem applyOp_producer_stable (opts : Options) (env : BrokerEnv)
    (s : EngineState) (op : EngineOp) (h : s.producer.isSome = true) :
    (applyOp opts env s op).producer = s.producer ∧
    (applyOp opts env s op).producerCreations = s.producerCreations := by
  cases op with
  | pub pe c p =>
    simp [applyOp, publish_fst, createProducer_memoized opts env s h]
  | sub c =>
    have hc := createConsumer_other_fields opts env s
    unfold applyOp subscribe
    rcases hcc : createConsumer opts env s with ⟨s', r⟩
    rw [hcc] at hc
    cases r <;> exact ⟨hc.1, hc.2.1⟩
  | unsub i =>
    unfold applyOp unsubscribe
    cases h2 : s.subscriptions.lookup i <;> simp [h2]

/-- Consumer field and creation count after one engine operation: once the
field holds a promise, every operation keeps it and the count. -/
theorem applyOp_consumer_stable (opts : Options) (env : BrokerEnv)
    (s : EngineState) (op : EngineOp) (h : s.consumer.isSome = true) :
    (applyOp opts env s op).consumer = s.consumer ∧
    (applyOp opts env s op).consumerCreations = s.consumerCreations := by
  cases op with
  | pub pe c p =>
    have hp := createProducer_other_fields opts env s
    simp [applyOp, publish_fst, hp.1, hp.2.1]
  | sub c =>
    simp [applyOp, subscribe, createConsumer_memoized opts env s h]
  | unsub i =>
    unfold applyOp unsubscribe
    cases h2 : s.subscriptions.lookup i <;> simp [h2]

/-- unsubscribe never touches the connection fields. -/
theorem unsubscribe_conn_fields (i : Nat) (s : EngineState) :
    (unsubscribe i s).1.producer = s.producer ∧
    (unsubscribe i s).1.producerCreations = s.producerCreations ∧
    (unsubscribe i s).1.consumer = s.consumer ∧
    (unsubscribe i s).1.consumerCreations = s.consumerCreations := by
  unfold unsubscribe
  cases h : s.subscriptions.lookup i <;> simp [h]

/-- subscribe never touches the producer-side fields. -/
theorem subscribe_producer_fields (opts : Options) (env : BrokerEnv)
    (c : String) (s : EngineState) :
    (subscribe opts env c s).1.producer = s.producer ∧
    (subscribe opts env c s).1.producerCreations = s.producerCreations := by
  have hc := createConsumer_other_fields opts env s
  unfold subscribe
  rcases hcc : createConsumer opts env s with ⟨s', r⟩
  rw [hcc] at hc
  cases r <;> exact ⟨hc.1, hc.2.1⟩

/-- publish never touches the consumer-side fields. -/
theorem publish_consumer_fields (opts : Options) (env : BrokerEnv)
    (pe : Option String) (c : String) (p : Json) (s : EngineState) :
    (publish opts env pe c p s).1.consumer = s.consumer ∧
    (publish opts env pe c p s).1.consumerCreations = s.consumerCreations := by
  have hp := createProducer_other_fields opts env s
  rw [publish_fst]
  exact ⟨hp.1, hp.2.1⟩

/-- Invariant: the producer promise field determines how many producer
creation sequences have started — none before the field is set, exactly one
afterwards. -/
def prodCreatedOnce (s : EngineState) : Prop :=
  (s.producer = none ∧ s.producerCreations = 0) ∨
  (s.producer.isSome = true ∧ s.producerCreations = 1)

/-- Invariant: the consumer promise field determines how many consumer
creation sequences have started. -/
def consCreatedOnce (s : EngineState) : Prop :=
  (s.consumer = none ∧ s.consumerCreations = 0) ∨
  (s.consumer.isSome = true ∧ s.consumerCreations = 1)

/-- One engine operation preserves the producer-creation invariant. -/
theorem prodCreatedOnce_applyOp (opts : Options) (env : BrokerEnv)
    (s : EngineState) (op : EngineOp) (h : prodCreatedOnce s) :
    prodCreatedOnce (applyOp opts env s op) := by
  rcases h with ⟨hn, hc⟩ | ⟨hs, hc⟩
  · cases op with
    | pub pe c p =>
      right
      rw [show applyOp opts env s (EngineOp.pub pe c p)
            = (createProducer opts env s).1 from by simp [applyOp, publish_fst]]
      unfold createProducer
      simp [hn, hc]
    | sub c =>
      left
      have hf := subscribe_producer_fields opts env c s
      exact ⟨hf.1.trans hn, hf.2.trans hc⟩
    | unsub i =>
      left
      have hf := unsubscribe_conn_fields i s
      exact ⟨hf.1.trans hn, hf.2.1.trans hc⟩
  · right
    have hf := applyOp_producer_stable opts env s op hs
    refine ⟨?_, hf.2.trans hc⟩
    rw [hf.1]
    exact hs

/-- One engine operation preserves the consumer-creation invariant. -/
theorem consCreatedOnce_applyOp (opts : Options) (env : BrokerEnv)
    (s : EngineState) (op : EngineOp) (h : consCreatedOnce s) :
    consCreatedOnce (applyOp opts env s op) := by
  rcases h with ⟨hn, hc⟩ | ⟨hs, hc⟩
  · cases op with
    | pub pe c p =>
      left
      have hf := publish_consumer_fields opts env pe c p s
      exact ⟨hf.1.trans hn, hf.2.trans hc⟩
    | sub c =>
      right
      have hnotsome : s.consumer.isSome = false := by simp [hn]
      unfold applyOp subscribe createConsumer
      rcases hr : creationResult opts env with ⟨o, d⟩
      cases o <;> simp [hnotsome, hr, hc, awaitOutcome]
    | unsub i =>
      left
      have hf := unsubscribe_conn_fields i s
      exact ⟨hf.2.2.1.trans hn, hf.2.2.2.trans hc⟩
  · right
    have hf := applyOp_consumer_stable opts env s op hs
    refine ⟨?_, hf.2.trans hc⟩
    rw [hf.1]
    exact hs

/-- Running any operation sequence preserves both creation invariants. -/
theorem createdOnce_runOps (opts : Options) (env : BrokerEnv)
    (ops : List EngineOp) (s : EngineState)
    (h : prodCreatedOnce s ∧ consCreatedOnce s) :
    prodCreatedOnce (runOps opts env ops s) ∧
    consCreatedOnce (runOps opts env ops s) := by
  induction ops generalizing s with
  | nil => exact h
  | cons op rest ih =>
    exact ih (applyOp opts env s op)
      ⟨prodCreatedOnce_applyOp opts env s op h.1,
       consCreatedOnce_applyOp opts env s op h.2⟩

/-- Once the producer promise exists, any further operation sequence keeps
the same promise and the same creation count. -/
theorem runOps_producer_stable (opts : Options) (env : BrokerEnv)
    (ops : List EngineOp) (s : EngineState) (h : s.producer.isSome = true) :
    (runOps opts env ops s).producer = s.producer ∧
    (runOps opts env ops s).producerCreations = s.producerCreations := by
  induction ops generalizing s with
  | nil => exact ⟨rfl, rfl⟩
  | cons op rest ih =>
    have h1 := applyOp_producer_stable opts env s op h
    have h2 : (applyOp opts env s op).producer.isSome = true := by
      rw [h1.1]; exact h
    have h3 := ih (applyOp opts env s op) h2
    exact ⟨h3.1.trans h1.1, h3.2.trans h1.2⟩

/-- Once the consumer promise exists, any further operation sequence keeps
the same promise and the same creation count. -/
theorem runOps_consumer_stable (opts : Options) (env : BrokerEnv)
    (ops : List EngineOp) (s : EngineState) (h : s.consumer.isSome = true) :
    (runOps opts env ops s).consumer = s.consumer ∧
    (runOps opts env ops s).consumerCreations = s.consumerCreations := by
  induction ops generalizing s with
  | nil => exact ⟨rfl, rfl⟩
  | cons op rest ih =>
    have h1 := applyOp_consumer_stable opts env s op h
    have h2 : (applyOp opts env s op).consumer.isSome = true := by
      rw [h1.1]; exact h
    have h3 := ih (applyOp opts env s op) h2
    exact ⟨h3.1.trans h1.1, h3.2.trans h1.2⟩

/-- C2: for every sequence of publish/subscribe/unsubscribe operations on a
fresh engine, at most one producer and at most one consumer creation
sequence ever starts; and once a promise field holds a memoized outcome,
every later operation sequence leaves that same outcome in place and starts
no new creation sequence. -/
theorem c2_single_connection :
    ∀ (opts : Options) (env : BrokerEnv) (ops : List EngineOp),
      (runOps opts env ops initialState).producerCreations ≤ 1 ∧
      (runOps opts env ops initialState).consumerCreations ≤ 1 ∧
      (∀ (ops2 : List EngineOp) (o : ConnOutcome),
        (runOps opts env ops initialState).producer = some o →
        (runOps opts env ops2 (runOps opts env ops initialState)).producer = some o ∧
        (runOps opts env ops2 (runOps opts env ops initialState)).producerCreations
          = (runOps opts env ops initialState).producerCreations) ∧
      (∀ (ops2 : List EngineOp) (o : ConnOutcome),
        (runOps opts env ops initialState).consumer = some o →
        (runOps opts env ops2 (runOps opts env ops initialState)).consumer = some o ∧
        (runOps opts env ops2 (runOps opts env ops initialState)).consumerCreations
          = (runOps opts env ops initialState).consumerCreations) := by
  intro opts env ops
  have hinv := createdOnce_runOps opts env ops initialState
    ⟨Or.inl ⟨rfl, rfl⟩, Or.inl ⟨rfl, rfl⟩⟩
  refine ⟨?_, ?_, ?_, ?_⟩
  · rcases hinv.1 with ⟨_, hc⟩ | ⟨_, hc⟩ <;> omega
  · rcases hinv.2 with ⟨_, hc⟩ | ⟨_, hc⟩ <;> omega
  · intro ops2 o ho
    have hs : (runOps opts env ops initialState).producer.isSome = true := by
      rw [ho]; rfl
    have := runOps_producer_stable opts env ops2 _ hs
    exact ⟨this.1.trans ho, this.2⟩
  · intro ops2 o ho
    have hs : (runOps opts env ops initialState).consumer.isSome = true := by
      rw [ho]; rfl
    have := runOps_consumer_stable opts env ops2 _ hs
    exact ⟨this.1.trans ho, this.2⟩

/-- C2 witness: after one subscribe on a healthy broker, the memoized
consumer outcome survives a further subscribe and no second creation
starts. -/
theorem c2_single_connection_witness :
    (runOps (sampleOpts false) { topics := ["t"] }
        [EngineOp.sub "d"]
        (runOps (sampleOpts false) { topics := ["t"] } [EngineOp.sub "c"]
          initialState)).consumer = some ConnOutcome.ready ∧
    (runOps (sampleOpts false) { topics := ["t"] }
        [EngineOp.sub "d"]
        (runOps (sampleOpts false) { topics := ["t"] } [EngineOp.sub "c"]
          initialState)).consumerCreations
      = (runOps (sampleOpts false) { topics := ["t"] } [EngineOp.sub "c"]
          initialState).consumerCreations :=
  (c2_single_connection (sampleOpts false) { topics := ["t"] }
    [EngineOp.sub "c"]).2.2.2 [EngineOp.sub "d"] ConnOutcome.ready rfl

/-- When the configured topic is absent from the broker metadata, a
createProducer call from a state whose producer promise is absent or already
failed rejects with the topic error, and leaves a failed promise behind. -/
theorem createProducer_absent (opts : Options) (env : BrokerEnv)
    (s : EngineState) (h : env.topics.contains opts.topic = false)
    (hb : s.producer = none ∨ s.producer = some (ConnOutcome.failed topicErr)) :
    (createProducer opts env s).2 = Except.error topicErr ∧
    (createProducer opts env s).1.producer = some (ConnOutcome.failed topicErr) := by
  have hm : ¬ opts.topic ∈ env.topics := by simpa using h
  rcases hb with hn | hf
  · unfold createProducer
    simp [hn, creationResult, hm, awaitOutcome]
  · unfold createProducer
    simp [hf, awaitOutcome]

/-- A createProducer rejection propagates through publish. -/
theorem publish_snd_of_error (opts : Options) (env : BrokerEnv)
    (pe : Option String) (c : String) (p : Json) (s : EngineState)
    (e : String) (h : (createProducer opts env s).2 = Except.error e) :
    (publish opts env pe c p s).2 = Except.error e := by
  unfold publish
  rcases hcp : createProducer opts env s with ⟨s', r⟩
  rw [hcp] at h
  cases r with
  | error e2 =>
    have he : e2 = e := by simpa using h
    subst he
    rfl
  | ok u => simp at h

/-- Under an absent topic, every reachable producer promise is either unset
or failed with the topic error. -/
theorem prodFailed_runOps (opts : Options) (env : BrokerEnv)
    (h : env.topics.contains opts.topic = false) (ops : List EngineOp)
    (s : EngineState)
    (hb : s.producer = none ∨ s.producer = some (ConnOutcome.failed topicErr)) :
    (runOps opts env ops s).producer = none ∨
    (runOps opts env ops s).producer = some (ConnOutcome.failed topicErr) := by
  induction ops generalizing s with
  | nil => exact hb
  | cons op rest ih =>
    refine ih (applyOp opts env s op) ?_
    cases op with
    | pub pe c p =>
      right
      rw [show applyOp opts env s (EngineOp.pub pe c p)
            = (createProducer opts env s).1 from by simp [applyOp, publish_fst]]
      exact (createProducer_absent opts env s h hb).2
    | sub c =>
      rw [show (applyOp opts env s (EngineOp.sub c)).producer
            = s.producer from (subscribe_producer_fields opts env c s).1]
      exact hb
    | unsub i =>
      rw [show (applyOp opts env s (EngineOp.unsub i)).producer
            = s.producer from (unsubscribe_conn_fields i s).1]
      exact hb

/-- C8, amended: with the configured topic absent from the broker metadata,
every publish call — from a fresh engine and after any operation sequence —
rejects with the topic error and never silently succeeds; the first publish
and the first subscribe tear the partially-open connection down with a
disconnect call, and the creating subscribe call rejects with the topic
error.  However, any later subscribe call finds the failed consumer promise
memoized, does not await it, and returns a fresh subscription id — it
succeeds silently. -/
theorem c8_topic_absent :
    ∀ (opts : Options) (env : BrokerEnv),
      env.topics.contains opts.topic = false →
      (∀ (ops : List EngineOp) (pe : Option String) (c : String) (p : Json),
        (publish opts env pe c p (runOps opts env ops initialState)).2
          = Except.error topicErr) ∧
      (∀ (pe : Option String) (c : String) (p : Json),
        (publish opts env pe c p initialState).1.producerDisconnects = 1) ∧
      (∀ c : String,
        (subscribe opts env c initialState).2 = Except.error topicErr ∧
        (subscribe opts env c initialState).1.consumerDisconnects = 1) ∧
      (∀ (s : EngineState) (c : String) (e : String),
        s.consumer = some (ConnOutcome.failed e) →
        (subscribe opts env c s).2 = Except.ok (s.subIdCounter + 1)) := by
  intro opts env h
  refine ⟨?_, ?_, ?_, ?_⟩
  · intro ops pe c p
    exact publish_snd_of_error opts env pe c p _ topicErr
      (createProducer_absent opts env _ h
        (prodFailed_runOps opts env h ops initialState (Or.inl rfl))).1
  · intro pe c p
    have hm : ¬ opts.topic ∈ env.topics := by simpa using h
    rw [publish_fst]
    unfold createProducer
    simp [initialState, creationResult, hm]
  · intro c
    have hm : ¬ opts.topic ∈ env.topics := by simpa using h
    constructor <;>
      simp [subscribe, createConsumer, initialState, creationResult, hm,
        awaitOutcome]
  · intro s c e hs
    have hsome : s.consumer.isSome = true := by rw [hs]; rfl
    simp [subscribe, createConsumer_memoized opts env s hsome]

/-- C8 witness: with topic `t` absent, publish after a prior failed
subscribe still rejects, and the first subscribe rejects with the topic
error after one teardown disconnect. -/
theorem c8_topic_absent_witness :
    (publish (sampleOpts false) envMissing none "c" Json.null
      (runOps (sampleOpts false) envMissing [EngineOp.sub "c"] initialState)).2
      = Except.error topicErr ∧
    (subscribe (sampleOpts false) envMissing "c" initialState).2
      = Except.error topicErr ∧
    (subscribe (sampleOpts false) envMissing "c" initialState).1.consumerDisconnects
      = 1 :=
  ⟨(c8_topic_absent (sampleOpts false) envMissing (by decide)).1
      [EngineOp.sub "c"] none "c" Json.null,
   ((c8_topic_absent (sampleOpts false) envMissing (by decide)).2.2.1 "c").1,
   ((c8_topic_absent (sampleOpts false) envMissing (by decide)).2.2.1 "c").2⟩

/-- C8 counterexample: with topic `t` absent from the metadata, the first
subscribe rejects, but a second subscribe on the same engine returns
subscription id 1 successfully — so subscribe does not always fail, it can
silently succeed. -/
theorem c8_silent_subscribe_cex :
    (subscribe (sampleOpts false) envMissing "c" initialState).2
      = Except.error topicErr ∧
    (subscribe (sampleOpts false) envMissing "c"
      ((subscribe (sampleOpts false) envMissing "c" initialState).1)).2
      = Except.ok 1 :=
  ⟨rfl, rfl⟩

/-- C4, amended: `close()` reaches a disconnect call exactly on the sides
holding a fulfilled handle promise; it resolves exactly when both sides are
connected and both disconnects succeed; any rejection it reports is one of
the two sides' disconnect errors, and when both disconnects fail it rejects
with whichever error settles first, discarding the other instead of
aggregating them; and when either side has no handle (or a rejected handle
promise), that side promise never settles, so `close()` stays pending
rather than resolving after the attempted disconnects finish. -/
theorem c4_close_behaviour :
    (∀ p : SideState, closeDisconnects p = true ↔ ∃ d, p = SideState.connected d) ∧
    (∀ (f : Bool) (p c : SideState),
      closeOutcome f p c = CloseOutcome.resolved ↔
      (p = SideState.connected none ∧ c = SideState.connected none)) ∧
    (∀ (f : Bool) (p c : SideState) (e : String),
      closeOutcome f p c = CloseOutcome.rejected e →
      sideError p = some e ∨ sideError c = some e) ∧
    (∀ e1 e2 : String,
      closeOutcome true (SideState.connected (some e1))
        (SideState.connected (some e2)) = CloseOutcome.rejected e1 ∧
      closeOutcome false (SideState.connected (some e1))
        (SideState.connected (some e2)) = CloseOutcome.rejected e2) ∧
    (∀ f : Bool,
      closeOutcome f SideState.absent SideState.absent = CloseOutcome.pending ∧
      closeOutcome f (SideState.connected none) SideState.absent
        = CloseOutcome.pending ∧
      closeOutcome f SideState.absent (SideState.connected none)
        = CloseOutcome.pending ∧
      closeOutcome f (SideState.connected none) SideState.failed
        = CloseOutcome.pending) := by
  refine ⟨?_, ?_, ?_, ?_, ?_⟩
  · intro p
    rcases p with _ | _ | d <;> simp [closeDisconnects]
  · intro f p c
    cases f <;> rcases p with _ | _ | (_ | ep) <;> rcases c with _ | _ | (_ | ec) <;>
      simp [closeOutcome, promiseAll2, sidePromise, settledRejection]
  · intro f p c e
    cases f <;> rcases p with _ | _ | (_ | ep) <;> rcases c with _ | _ | (_ | ec) <;>
      simp [closeOutcome, promiseAll2, sidePromise, settledRejection, sideError] <;>
      intro he <;> simp [he]
  · intro e1 e2
    constructor <;>
      simp [closeOutcome, promiseAll2, sidePromise, settledRejection]
  · intro f
    cases f <;>
      refine ⟨?_, ?_, ?_, ?_⟩ <;>
      simp [closeOutcome, promiseAll2, sidePromise, settledRejection]

/-- C4 witness: a close with only the producer side failing rejects with an
error that is one of the two sides' disconnect errors. -/
theorem c4_close_behaviour_witness :
    sideError (SideState.connected (some "boom")) = some "boom" ∨
    sideError (SideState.connected none) = some "boom" :=
  c4_close_behaviour.2.2.1 true (SideState.connected (some "boom"))
    (SideState.connected none) "boom" rfl

/-- C4 counterexample: when both disconnects fail, `close()` rejects with
only the first error — the consumer-side error never reaches the caller, so
errors are not aggregated; and with no handles at all (or only a producer
handle), `close()` stays pending forever instead of resolving once all
attempted disconnects have completed. -/
theorem c4_no_aggregation_cex :
    closeReported (closeOutcome true (SideState.connected (some "e1"))
        (SideState.connected (some "e2"))) = ["e1"] ∧
    ¬ ("e2" ∈ closeReported (closeOutcome true (SideState.connected (some "e1"))
        (SideState.connected (some "e2")))) ∧
    closeOutcome true SideState.absent SideState.absent = CloseOutcome.pending ∧
    closeOutcome true (SideState.connected none) SideState.absent
      = CloseOutcome.pending :=
  ⟨rfl, by decide, rfl, rfl⟩

/-- C10, amended: a header-mode message with no headers field at all is not
dropped with a missing-channel-header warning; it falls through to the
envelope path, where its value is parsed and routed by the decoded object's
`channel` field when the property access succeeds and the field is truthy
(coerced to a string event name), and to the configured topic name when the
access succeeds and the field is absent or falsy; when the decoded value is
null, the property access itself throws a TypeError out of the handler and
nothing is routed. -/
theorem c10_headers_absent_envelope :
    (∀ (opts : Options) (msg : KMessage),
      opts.useHeaders = true → msg.headers = none →
      dataHandler opts msg = envelopeBranch opts msg.value) ∧
    (∀ (opts : Options) (v : Buf),
      envelopeBranch opts v ≠ Except.ok HandlerOut.warnedMissingHeader) ∧
    (∀ (opts : Options) (msg : KMessage) (j : Json) (chf pf : Option Json),
      opts.useHeaders = true → msg.headers = none → msg.value = Buf.json j →
      getField j "channel" = Except.ok chf → fieldTruthy chf = true →
      getField j "payload" = Except.ok pf →
      dataHandler opts msg
        = Except.ok (HandlerOut.emitted (emitName chf)
            (match pf with
             | some q => JsVal.json q
             | none => JsVal.undef))) ∧
    (∀ (opts : Options) (msg : KMessage) (j : Json) (chf : Option Json),
      opts.useHeaders = true → msg.headers = none → msg.value = Buf.json j →
      getField j "channel" = Except.ok chf → fieldTruthy chf = false →
      dataHandler opts msg
        = Except.ok (HandlerOut.emitted opts.topic (JsVal.json j))) ∧
    (∀ (opts : Options) (msg : KMessage),
      opts.useHeaders = true → msg.headers = none →
      msg.value = Buf.json Json.null →
      dataHandler opts msg = Except.error JsErr.typeError) := by
  refine ⟨?_, ?_, ?_, ?_, ?_⟩
  · intro opts msg h hh
    simp [dataHandler, h, hh]
  · intro opts v
    cases v with
    | json j =>
      simp only [envelopeBranch, deserialiseMessage]
      rcases hc : getField j "channel" with e | chf
      · simp
      · cases hft : fieldTruthy chf with
        | false => simp [hft]
        | true => rcases hp : getField j "payload" with e2 | pf <;> simp [hft, hp]
    | malformed s => simp [envelopeBranch, deserialiseMessage]
  · intro opts msg j chf pf h hh hv hch ht hp
    simp [dataHandler, h, hh, envelopeBranch, hv, deserialiseMessage, hch, ht, hp]
  · intro opts msg j chf h hh hv hch ht
    simp [dataHandler, h, hh, envelopeBranch, hv, deserialiseMessage, hch, ht]
  · intro opts msg h hh hv
    simp [dataHandler, h, hh, envelopeBranch, hv, deserialiseMessage, getField]

/-- C10 witness: a header-mode message without headers and with a truthy
string channel field is routed by that field. -/
theorem c10_headers_absent_envelope_witness :
    dataHandler (sampleOpts true)
      { value := Buf.json (Json.obj
          [("channel", Json.str "orders"), ("payload", Json.num 5)]),
        headers := none }
      = Except.ok (HandlerOut.emitted "orders" (JsVal.json (Json.num 5))) :=
  c10_headers_absent_envelope.2.2.1 (sampleOpts true)
    { value := Buf.json (Json.obj
        [("channel", Json.str "orders"), ("payload", Json.num 5)]),
      headers := none }
    (Json.obj [("channel", Json.str "orders"), ("payload", Json.num 5)])
    (some (Json.str "orders")) (some (Json.num 5)) rfl rfl rfl rfl rfl rfl

/-- C10 counterexample: a headers-less header-mode message whose decoded
object has a `channel` field holding the empty string is routed to the
configured topic `t`, not to the channel named by its `channel` field — so
routing is not by the channel field whenever one is present, but only when
it is truthy. -/
theorem c10_falsy_channel_cex :
    dataHandler (sampleOpts true)
      { value := Buf.json (Json.obj [("channel", Json.str "")]),
        headers := none }
      = Except.ok (HandlerOut.emitted "t"
          (JsVal.json (Json.obj [("channel", Json.str "")]))) ∧
    getField (Json.obj [("channel", Json.str "")]) "channel"
      = Except.ok (some (Json.str "")) ∧
    ("t" : String) ≠ "" :=
  ⟨rfl, rfl, by decide⟩

end KafkaPubSub
